import Mathlib

/-!
Shallow embedding of the huskypo wait / stale-recovery core
(src/huskypo/element.py, src/huskypo/ec_extension.py, src/huskypo/config.py).

Python exceptions are modelled with an explicit error type and the Except
monad.  The external Selenium or Appium driver is modelled as an abstract
state giving, for the one locator under consideration, the list of matched
node handles and the per-handle outcome of each driver primitive
(is_displayed, is_enabled, is_selected, text).  Wall-clock polling of
WebDriverWait.until is modelled by a list of driver states, one per poll;
an exhausted list is the deadline, raising TimeoutException.
-/

namespace HuskyPO

/-- Python exception classes relevant to the embedded code.  The constructor
other stands for any exception class distinct from all the named ones. -/
inductive Exc where
  | noSuchElement
  | staleElementReference
  | invalidSessionId
  | attributeError
  | timeout
  | indexError
  | valueError
  | typeError
  | other (code : Nat)
  deriving DecidableEq, Repr

/-- ElementReferenceException tuple from element.py:
(AttributeError, StaleElementReferenceException, InvalidSessionIdException). -/
def isRefExc : Exc → Bool
  | .attributeError => true
  | .staleElementReference => true
  | .invalidSessionId => true
  | _ => false

/-- Value returned by an expected-condition predicate, as tested for
truthiness by the if statement inside WebDriverWait.until: a WebElement
(always truthy), the boolean True (truthy) or the boolean False (falsy). -/
inductive PredVal where
  | elem (h : Nat)
  | boolTrue
  | boolFalse
  deriving DecidableEq, Repr

def PredVal.truthy : PredVal → Bool
  | .boolFalse => false
  | _ => true

def PredVal.elemHandle? : PredVal → Option Nat
  | .elem h => some h
  | _ => none

/-- Abstract driver state at one poll instant: the handles currently matched
by the locator under consideration (in document order), and the outcome of
each driver primitive on each handle.  A handle whose primitives fail with
staleElementReference models a stale reference. -/
structure DriverState where
  elems : List Nat
  disp : Nat → Except Exc Bool
  enab : Nat → Except Exc Bool
  sel : Nat → Except Exc Bool
  txt : Nat → Except Exc String

/-- Python list indexing semantics: a negative index counts from the end of
the list; an index out of range on either side raises IndexError. -/
def pyListGet (l : List Nat) (k : Int) : Except Exc Nat :=
  if 0 ≤ k then
    match l.get? k.toNat with
    | some x => .ok x
    | none => .error .indexError
  else
    let j : Int := (l.length : Int) + k
    if 0 ≤ j then
      match l.get? j.toNat with
      | some x => .ok x
      | none => .error .indexError
    else .error .indexError

/-- driver.find_element for the locator: the first match, or
NoSuchElementException when the locator matches nothing. -/
def DriverState.find_element (d : DriverState) : Except Exc Nat :=
  match d.elems with
  | [] => .error .noSuchElement
  | h :: _ => .ok h

/-- ec_extension._find_element_by: with index None use driver.find_element;
with an integer index use driver.find_elements with Python list indexing and
convert IndexError into NoSuchElementException. -/
def _find_element_by (d : DriverState) (index : Option Int) : Except Exc Nat :=
  match index with
  | none => d.find_element
  | some k =>
    match pyListGet d.elems k with
    | .error .indexError => .error .noSuchElement
    | r => r

/-- ec_extension.presence_of_element_located. -/
def presence_of_element_located (index : Option Int) (d : DriverState) :
    Except Exc PredVal :=
  (_find_element_by d index).map PredVal.elem

/-- ec_extension.visibility_of_element on a cached handle:
element if element.is_displayed() else False. -/
def visibility_of_element (h : Nat) (d : DriverState) : Except Exc PredVal := do
  let b ← d.disp h
  pure (if b then .elem h else .boolFalse)

/-- ec_extension.visibility_of_element_located. -/
def visibility_of_element_located (index : Option Int) (d : DriverState) :
    Except Exc PredVal := do
  let h ← _find_element_by d index
  let b ← d.disp h
  pure (if b then .elem h else .boolFalse)

/-- The except clause shared by the two tolerant inverse predicates: a
NoSuchElementException or StaleElementReferenceException raised inside the
try block is re-raised when present is true and folded into the boolean True
when present is false; every other outcome passes through. -/
def tolerateAbsence (present : Bool) : Except Exc PredVal → Except Exc PredVal
  | .error .noSuchElement =>
    if present then .error .noSuchElement else .ok .boolTrue
  | .error .staleElementReference =>
    if present then .error .staleElementReference else .ok .boolTrue
  | r => r

/-- Try block of ec_extension.invisibility_of_element_located:
element if not element.is_displayed() else False. -/
def invisibility_of_element_located_body (index : Option Int) (d : DriverState) :
    Except Exc PredVal := do
  let h ← _find_element_by d index
  let b ← d.disp h
  pure (if b then .boolFalse else .elem h)

/-- ec_extension.invisibility_of_element_located with the tolerate-absence
flag named present. -/
def invisibility_of_element_located (index : Option Int) (present : Bool)
    (d : DriverState) : Except Exc PredVal :=
  tolerateAbsence present (invisibility_of_element_located_body index d)

/-- ec_extension.element_to_be_clickable on a cached handle:
element if element.is_displayed() and element.is_enabled() else False, with
the Python short-circuit evaluation of the conjunction. -/
def element_to_be_clickable (h : Nat) (d : DriverState) : Except Exc PredVal := do
  let a ← d.disp h
  let c ← if a then d.enab h else pure false
  pure (if c then .elem h else .boolFalse)

/-- ec_extension.element_located_to_be_clickable. -/
def element_located_to_be_clickable (index : Option Int) (d : DriverState) :
    Except Exc PredVal := do
  let h ← _find_element_by d index
  let a ← d.disp h
  let c ← if a then d.enab h else pure false
  pure (if c then .elem h else .boolFalse)

/-- Try block of ec_extension.element_located_to_be_unclickable:
element if not (element.is_displayed() and element.is_enabled()) else False. -/
def element_located_to_be_unclickable_body (index : Option Int) (d : DriverState) :
    Except Exc PredVal := do
  let h ← _find_element_by d index
  let a ← d.disp h
  let c ← if a then d.enab h else pure false
  pure (if c then .boolFalse else .elem h)

/-- ec_extension.element_located_to_be_unclickable with the tolerate-absence
flag named present, handled exactly as in invisibility_of_element_located. -/
def element_located_to_be_unclickable (index : Option Int) (present : Bool)
    (d : DriverState) : Except Exc PredVal :=
  tolerateAbsence present (element_located_to_be_unclickable_body index d)

/-- ec_extension.element_to_be_selected on a cached handle. -/
def element_to_be_selected (h : Nat) (d : DriverState) : Except Exc PredVal := do
  let b ← d.sel h
  pure (if b then .elem h else .boolFalse)

/-- ec_extension.element_located_to_be_selected.  There is no tolerate-absence
flag: a NoSuchElementException from the lookup propagates. -/
def element_located_to_be_selected (index : Option Int) (d : DriverState) :
    Except Exc PredVal := do
  let h ← _find_element_by d index
  let b ← d.sel h
  pure (if b then .elem h else .boolFalse)

/-- ec_extension.element_to_be_unselected on a cached handle. -/
def element_to_be_unselected (h : Nat) (d : DriverState) : Except Exc PredVal := do
  let b ← d.sel h
  pure (if b then .boolFalse else .elem h)

/-- ec_extension.element_located_to_be_unselected.  There is no
tolerate-absence flag: a NoSuchElementException from the lookup propagates. -/
def element_located_to_be_unselected (index : Option Int) (d : DriverState) :
    Except Exc PredVal := do
  let h ← _find_element_by d index
  let b ← d.sel h
  pure (if b then .boolFalse else .elem h)

/-- Default ignored-exception set of WebDriverWait: NoSuchElementException only. -/
def ignoredDefault : Exc → Bool
  | .noSuchElement => true
  | _ => false

/-- Ignored-exception set when Element.wait additionally passes
StaleElementReferenceException for the locator-fallback waits. -/
def ignoredWithStale : Exc → Bool
  | .noSuchElement => true
  | .staleElementReference => true
  | _ => false

/-- WebDriverWait.until: evaluate the predicate once per poll instant; a
truthy value is returned, a falsy value or an ignored exception continues
polling, a non-ignored exception propagates, and an exhausted poll list is
the deadline, raising TimeoutException. -/
def wdwUntil (ignored : Exc → Bool) (pred : DriverState → Except Exc PredVal) :
    List DriverState → Except Exc PredVal
  | [] => .error .timeout
  | d :: ds =>
    match pred d with
    | .ok v => if v.truthy then .ok v else wdwUntil ignored pred ds
    | .error e => if ignored e then wdwUntil ignored pred ds else .error e

/-- config.Timeout class attributes DEFAULT and RERAISE, the process-wide
mutable configuration, modelled as an explicit record. -/
structure TimeoutConfig where
  DEFAULT : ℚ
  RERAISE : Bool

/-- config.Timeout.reraise: the explicit per-call switch when given, else the
process-wide RERAISE default. -/
def Timeout.reraise (cfg : TimeoutConfig) (switch : Option Bool) : Bool :=
  match switch with
  | none => cfg.RERAISE
  | some b => b

/-- Static configuration of an Element descriptor: locator strategy (by),
locator value, optional list index and optional per-descriptor timeout. -/
structure Element where
  by_ : Option String
  value : Option String
  index : Option Int
  timeout : Option ℚ

/-- Mutable per-descriptor state: the cached handles and the recorded wait
timeout (the attributes _present_element, _visible_element, _wait_timeout,
unset attributes being modelled as none). -/
structure ElemState where
  presentElement : Option Nat
  visibleElement : Option Nat
  waitTimeout : Option ℚ

/-- Element.locator: raises ValueError when by or value is None. -/
def Element.locator (e : Element) : Except Exc (String × String) :=
  match e.by_, e.value with
  | some b, some v => .ok (b, v)
  | _, _ => .error .valueError

/-- Element.initial_timeout: Timeout.DEFAULT if self.timeout is None else
self.timeout. -/
def Element.initial_timeout (cfg : TimeoutConfig) (e : Element) : ℚ :=
  match e.timeout with
  | none => cfg.DEFAULT
  | some t => t

/-- Element.wait records in _wait_timeout the initial timeout when the
per-call timeout is None, else the per-call timeout. -/
def Element.waitResolve (cfg : TimeoutConfig) (e : Element) (timeout : Option ℚ) : ℚ :=
  match timeout with
  | none => e.initial_timeout cfg
  | some t => t

/-- Element.wait_timeout property: the recorded _wait_timeout, or None when no
wait has run yet. -/
def Element.wait_timeout (st : ElemState) : Option ℚ :=
  st.waitTimeout

/-- First stage of a two-stage wait method: the wait on the cached
_present_element with the default ignored set; reading the unset attribute
raises AttributeError before the wait starts. -/
def cachedStage (pred : Nat → DriverState → Except Exc PredVal)
    (pe : Option Nat) (trace1 : List DriverState) : Except Exc PredVal :=
  match pe with
  | none => .error .attributeError
  | some h => wdwUntil ignoredDefault (pred h) trace1

/-- Element.wait_present over a poll trace.  Element.wait runs first and
records the resolved timeout; the locator is evaluated while building the
expected-condition argument, so a missing by or value raises ValueError
before any polling; a TimeoutException from until is re-raised or converted
to the sentinel False according to Timeout.reraise. -/
def Element.wait_present (cfg : TimeoutConfig) (e : Element) (st : ElemState)
    (trace : List DriverState) (timeout : Option ℚ) (reraise : Option Bool) :
    Except Exc PredVal × ElemState :=
  let st := { st with waitTimeout := some (e.waitResolve cfg timeout) }
  match e.locator with
  | .error err => (.error err, st)
  | .ok _ =>
    match wdwUntil ignoredDefault (presence_of_element_located e.index) trace with
    | .ok v => (.ok v, { st with presentElement := v.elemHandle? })
    | .error .timeout =>
      if Timeout.reraise cfg reraise then (.error .timeout, st)
      else (.ok .boolFalse, st)
    | .error err => (.error err, st)

/-- Element.wait_visible: first wait on the cached _present_element (reading
the unset attribute raises AttributeError); on an ElementReferenceException
fall back to a fresh locator-based wait that also ignores
StaleElementReferenceException.  The except TimeoutException clause belongs
to the outer try, so a TimeoutException raised inside the fallback handler
propagates without consulting the reraise policy. -/
def Element.wait_visible (cfg : TimeoutConfig) (e : Element) (st : ElemState)
    (trace1 trace2 : List DriverState) (timeout : Option ℚ) (reraise : Option Bool) :
    Except Exc PredVal × ElemState :=
  let st := { st with waitTimeout := some (e.waitResolve cfg timeout) }
  match cachedStage visibility_of_element st.presentElement trace1 with
  | .ok v => (.ok v, { st with visibleElement := v.elemHandle? })
  | .error err =>
    if isRefExc err then
      match e.locator with
      | .error lerr => (.error lerr, st)
      | .ok _ =>
        match wdwUntil ignoredWithStale (visibility_of_element_located e.index) trace2 with
        | .ok v =>
          (.ok v, { st with presentElement := v.elemHandle?, visibleElement := v.elemHandle? })
        | .error err2 => (.error err2, st)
    else
      match err with
      | .timeout =>
        if Timeout.reraise cfg reraise then (.error .timeout, st)
        else (.ok .boolFalse, st)
      | _ => (.error err, st)

/-- Element.wait_selected: same two-stage structure as wait_visible, with the
selected predicates; the fallback stores the found element in
_present_element. -/
def Element.wait_selected (cfg : TimeoutConfig) (e : Element) (st : ElemState)
    (trace1 trace2 : List DriverState) (timeout : Option ℚ) (reraise : Option Bool) :
    Except Exc PredVal × ElemState :=
  let st := { st with waitTimeout := some (e.waitResolve cfg timeout) }
  match cachedStage element_to_be_selected st.presentElement trace1 with
  | .ok v => (.ok v, st)
  | .error err =>
    if isRefExc err then
      match e.locator with
      | .error lerr => (.error lerr, st)
      | .ok _ =>
        match wdwUntil ignoredWithStale (element_located_to_be_selected e.index) trace2 with
        | .ok v => (.ok v, { st with presentElement := v.elemHandle? })
        | .error err2 => (.error err2, st)
    else
      match err with
      | .timeout =>
        if Timeout.reraise cfg reraise then (.error .timeout, st)
        else (.ok .boolFalse, st)
      | _ => (.error err, st)

/-- Element.wait_unselected: same two-stage structure as wait_selected with
the unselected predicates.  There is no tolerate-absence flag. -/
def Element.wait_unselected (cfg : TimeoutConfig) (e : Element) (st : ElemState)
    (trace1 trace2 : List DriverState) (timeout : Option ℚ) (reraise : Option Bool) :
    Except Exc PredVal × ElemState :=
  let st := { st with waitTimeout := some (e.waitResolve cfg timeout) }
  match cachedStage element_to_be_unselected st.presentElement trace1 with
  | .ok v => (.ok v, st)
  | .error err =>
    if isRefExc err then
      match e.locator with
      | .error lerr => (.error lerr, st)
      | .ok _ =>
        match wdwUntil ignoredWithStale (element_located_to_be_unselected e.index) trace2 with
        | .ok v => (.ok v, { st with presentElement := v.elemHandle? })
        | .error err2 => (.error err2, st)
    else
      match err with
      | .timeout =>
        if Timeout.reraise cfg reraise then (.error .timeout, st)
        else (.ok .boolFalse, st)
      | _ => (.error err, st)

/-- Element.text: try the text primitive on the cached _present_element; on
an ElementReferenceException fall back to the present_element property, that
is wait_present with reraise True over the recovery trace, and read text on
the fresh handle in the driver state reached afterwards (s2).  The first
attempt runs in driver state s1.  A handle stored as the boolean True would
fail the attribute lookup again, modelled by the attributeError branch. -/
def Element.text (cfg : TimeoutConfig) (e : Element) (st : ElemState)
    (s1 : DriverState) (trace : List DriverState) (s2 : DriverState) :
    Except Exc String × ElemState :=
  let attempt : Except Exc String :=
    match st.presentElement with
    | none => .error .attributeError
    | some h => s1.txt h
  match attempt with
  | .ok v => (.ok v, st)
  | .error err =>
    if isRefExc err then
      match e.wait_present cfg st trace none (some true) with
      | (.ok v, st2) =>
        match v.elemHandle? with
        | some h2 => (s2.txt h2, st2)
        | none => (.error .attributeError, st2)
      | (.error err2, st2) => (.error err2, st2)
    else (.error err, st)

/-- Element.is_visible: is_displayed on the cached _present_element; on an
ElementReferenceException fall back to the present_element property
(wait_present with reraise True) and call is_displayed on the fresh handle. -/
def Element.is_visible (cfg : TimeoutConfig) (e : Element) (st : ElemState)
    (s1 : DriverState) (trace : List DriverState) (s2 : DriverState) :
    Except Exc Bool × ElemState :=
  let attempt : Except Exc Bool :=
    match st.presentElement with
    | none => .error .attributeError
    | some h => s1.disp h
  match attempt with
  | .ok v => (.ok v, st)
  | .error err =>
    if isRefExc err then
      match e.wait_present cfg st trace none (some true) with
      | (.ok v, st2) =>
        match v.elemHandle? with
        | some h2 => (s2.disp h2, st2)
        | none => (.error .attributeError, st2)
      | (.error err2, st2) => (.error err2, st2)
    else (.error err, st)

/-- A Python numeric coordinate component: an int or a float. -/
inductive PyNum where
  | i (n : Int)
  | f (q : ℚ)
  deriving DecidableEq, Repr

/-- A Python coordinate argument: a dict (only its values matter, in order),
a tuple, or an object of any other type. -/
inductive PyCoord where
  | dict (l : List (String × PyNum))
  | tup (l : List PyNum)
  | other
  deriving DecidableEq, Repr

/-- The value tuple examined by Element.__get_coordinate: dict values or the
tuple itself; none for any other type. -/
def PyCoord.values? : PyCoord → Option (List PyNum)
  | .dict l => some (l.map Prod.snd)
  | .tup l => some l
  | .other => none

/-- The homogeneous value tuple produced by Element.__get_coordinate. -/
inductive CoordVals where
  | ints (l : List Int)
  | floats (l : List ℚ)
  deriving DecidableEq, Repr

/-- all(isinstance(value, int) for value in values), together with the int
contents when it holds.  On the empty tuple Python all() is True. -/
def allInts : List PyNum → Option (List Int)
  | [] => some []
  | .i n :: rest => (allInts rest).map (n :: ·)
  | .f _ :: _ => none

/-- all(isinstance(value, float) for value in values), together with the
float contents when it holds. -/
def allFloats : List PyNum → Option (List ℚ)
  | [] => some []
  | .f q :: rest => (allFloats rest).map (q :: ·)
  | .i _ :: _ => none

/-- Element.__get_coordinate: TypeError unless the argument is a dict or a
tuple; TypeError unless the values are all int or all float; ValueError when
the values are floats and one of them lies outside the closed interval from
0 to 1. -/
def __get_coordinate (c : PyCoord) : Except Exc CoordVals :=
  match c.values? with
  | none => .error .typeError
  | some values =>
    match allInts values with
    | some l => .ok (.ints l)
    | none =>
      match allFloats values with
      | some l =>
        if l.all (fun q => decide (0 ≤ q) && decide (q ≤ 1)) then .ok (.floats l)
        else .error .valueError
      | none => .error .typeError

/-- Python int() conversion on a rational: truncation toward zero. -/
def pytrunc (q : ℚ) : ℤ :=
  if 0 ≤ q then ⌊q⌋ else ⌈q⌉

/-- One driver interaction observable during the argument phase of swipe_by
and flick_by: the window-rectangle query that Page.get_window_rect forwards
to driver.get_window_rect, and the gestures themselves. -/
inductive DriverCall where
  | get_window_rect
  | swipe (sx sy ex ey : Int)
  | flick (sx sy ex ey : Int)
  deriving DecidableEq, Repr

/-- Element.__get_area, together with the driver interactions it performs:
the coordinate argument is validated and unpacked first (an unpack of a
value tuple whose length is not four raises ValueError), with no driver
call; an all-int coordinate is the absolute rectangle, again with no driver
call; an all-float coordinate is a ratio of the window rectangle, which
__get_area only then obtains from the driver through Page.get_window_rect
before converting with int() truncation. -/
def __get_area (window : Int × Int × Int × Int) (area : PyCoord) :
    Except Exc (Int × Int × Int × Int) × List DriverCall :=
  match __get_coordinate area with
  | .error err => (.error err, [])
  | .ok (.ints [ax, ay, aw, ah]) => (.ok (ax, ay, aw, ah), [])
  | .ok (.floats [ax, ay, aw, ah]) =>
    let (wx, wy, ww, wh) := window
    (.ok (pytrunc ((wx : ℚ) + (ww : ℚ) * ax), pytrunc ((wy : ℚ) + (wh : ℚ) * ay),
      pytrunc ((ww : ℚ) * aw), pytrunc ((wh : ℚ) * ah)), [.get_window_rect])
  | .ok _ => (.error .valueError, [])

/-- Element.__get_offset: an all-int offset is absolute; an all-float offset
is a ratio of the area rectangle, converted with int() truncation. -/
def __get_offset (offset : PyCoord) (area : Int × Int × Int × Int) :
    Except Exc (Int × Int × Int × Int) := do
  match ← __get_coordinate offset with
  | .ints [sx, sy, ex, ey] => pure (sx, sy, ex, ey)
  | .floats [sx, sy, ex, ey] =>
    let (ax, ay, aw, ah) := area
    pure (pytrunc ((ax : ℚ) + (aw : ℚ) * sx), pytrunc ((ay : ℚ) + (ah : ℚ) * sy),
      pytrunc ((ax : ℚ) + (aw : ℚ) * ex), pytrunc ((ay : ℚ) + (ah : ℚ) * ey))
  | _ => throw .valueError

/-- Element.swipe_by up to the gesture phase, together with the driver
interactions issued: the area argument is validated and converted first
(querying the window rectangle when the area is given as ratios), then the
offset argument is validated and converted with no driver call, and only
afterwards do the swipe loops issue driver gestures, abstracted here as the
continuation gesture returning its own driver calls. -/
def Element.swipe_by (offset area : PyCoord) (window : Int × Int × Int × Int)
    (gesture : Int × Int × Int × Int → Int × Int × Int × Int →
      Except Exc Unit × List DriverCall) :
    Except Exc Unit × List DriverCall :=
  match __get_area window area with
  | (.error err, calls) => (.error err, calls)
  | (.ok a, calls) =>
    match __get_offset offset a with
    | .error err => (.error err, calls)
    | .ok o =>
      match gesture o a with
      | (rg, calls2) => (rg, calls ++ calls2)

/-- Element.__start_swiping_by as a fuel-indexed loop: each iteration checks
is_viewable; when false it performs one driver.swipe and repeats.  In the
source the comparison of count with max_swipe only emits a log message and
does not leave the loop.  The result is the swipe count on loop exit, or
none when the element is still not viewable after fuel further iterations. -/
def __start_swiping_by (viewable : Nat → Bool) (max_swipe : Nat) :
    Nat → Nat → Option Nat
  | _, 0 => none
  | count, fuel + 1 =>
    if viewable count then some count
    else
      -- the count == max_swipe branch of the source only logs; no break, no return
      __start_swiping_by viewable max_swipe (count + 1) fuel

/-- Element.__start_flicking_by: the same loop shape with driver.flick; the
comparison of count with the maximum flick count likewise only logs. -/
def __start_flicking_by (viewable : Nat → Bool) (max_flick : Nat) :
    Nat → Nat → Option Nat
  | _, 0 => none
  | count, fuel + 1 =>
    if viewable count then some count
    else __start_flicking_by viewable max_flick (count + 1) fuel

/-- Element.__start_adjusting_by, abstracted to its control flow: the for
loop runs i from 1 to max_adjust + 1; adjustDelta i is the chosen adjust
action at iteration i (none when the element is inside the area, which makes
the loop return); at i = max_adjust + 1 the loop returns before swiping,
otherwise it performs one driver.swipe.  The result counts the adjusting
swipes performed. -/
def adjustGo (adjustDelta : Nat → Option (Int × Int)) (max_adjust : Nat) :
    Nat → Nat → Nat
  | _, 0 => 0
  | i, rem + 1 =>
    match adjustDelta i with
    | none => 0
    | some _ =>
      if i = max_adjust + 1 then 0
      else 1 + adjustGo adjustDelta max_adjust (i + 1) rem

/-- Element.__start_adjusting_by: range(1, max_adjust + 2) gives the
iterations i = 1 .. max_adjust + 1. -/
def __start_adjusting_by (adjustDelta : Nat → Option (Int × Int)) (max_adjust : Nat) : Nat :=
  adjustGo adjustDelta max_adjust 1 (max_adjust + 1)

/-- Specification-side statement of the timeout precedence, following the
spec wording: the per-call timeout when given, else the per-descriptor
timeout, else the library-wide default. -/
def resolvedTimeoutSpec (callT descT : Option ℚ) (dflt : ℚ) : ℚ :=
  callT.getD (descT.getD dflt)

/-! ### Sample driver states used by the concrete witnesses -/

/-- Driver state with three matched handles, every primitive succeeding. -/
def dThree : DriverState :=
  ⟨[10, 11, 12], fun _ => .ok true, fun _ => .ok true, fun _ => .ok false,
    fun _ => .ok "txt"⟩

/-- Driver state with no matched handles; every primitive on any handle
fails with a stale reference. -/
def dNone : DriverState :=
  ⟨[], fun _ => .error .staleElementReference, fun _ => .error .staleElementReference,
    fun _ => .error .staleElementReference, fun _ => .error .staleElementReference⟩

/-- Driver state with one matched handle whose toggle state is selected. -/
def dSel : DriverState :=
  ⟨[7], fun _ => .ok true, fun _ => .ok true, fun _ => .ok true, fun _ => .ok "s"⟩

/-- The library default configuration: Timeout.DEFAULT 30, Timeout.RERAISE true. -/
def cfgD : TimeoutConfig := ⟨30, true⟩

/-- An Element descriptor with a complete locator and no explicit timeout. -/
def eID : Element := ⟨some "id", some "x", none, none⟩

/-- A fresh descriptor state: no cached handles, no recorded wait timeout. -/
def st0 : ElemState := ⟨none, none, none⟩

/-! ### Helper lemmas -/

/-- Bind of the Except monad on a success, as a rewriting lemma. -/
theorem exc_bind_ok {α β : Type} (x : α) (f : α → Except Exc β) :
    (Except.ok x >>= f : Except Exc β) = f x := rfl

/-- Bind of the Except monad on an error, as a rewriting lemma. -/
theorem exc_bind_err {α β : Type} (e : Exc) (f : α → Except Exc β) :
    (Except.error e >>= f : Except Exc β) = .error e := rfl

/-- Pure of the Except monad, as a rewriting lemma. -/
theorem exc_pure {α : Type} (x : α) : (pure x : Except Exc α) = .ok x := rfl

/-- pyListGet fails only with IndexError. -/
theorem pyListGet_error {l : List Nat} {k : Int} {e : Exc}
    (h : pyListGet l k = .error e) : e = .indexError := by
  simp only [pyListGet] at h
  split at h
  · split at h
    · exact Except.noConfusion h
    · injection h with h2
      exact h2.symm
  · split at h
    · split at h
      · exact Except.noConfusion h
      · injection h with h2
        exact h2.symm
    · injection h with h2
      exact h2.symm

/-- pyListGet returns only members of the list. -/
theorem pyListGet_ok_mem {l : List Nat} {k : Int} {x : Nat}
    (h : pyListGet l k = .ok x) : x ∈ l := by
  simp only [pyListGet] at h
  split at h
  · cases hg : l.get? k.toNat with
    | none =>
      rw [hg] at h
      exact Except.noConfusion h
    | some y =>
      rw [hg] at h
      injection h with h2
      subst h2
      exact List.get?_mem hg
  · split at h
    · cases hg : l.get? ((l.length : Int) + k).toNat with
      | none =>
        rw [hg] at h
        exact Except.noConfusion h
      | some y =>
        rw [hg] at h
        injection h with h2
        subst h2
        exact List.get?_mem hg
    · exact Except.noConfusion h

/-- _find_element_by fails only with NoSuchElementException: the IndexError
of an out-of-range index is converted. -/
theorem _find_element_by_error {d : DriverState} {index : Option Int} {e : Exc}
    (h : _find_element_by d index = .error e) : e = .noSuchElement := by
  cases index with
  | none =>
    simp only [_find_element_by, DriverState.find_element] at h
    cases hd : d.elems with
    | nil =>
      rw [hd] at h
      injection h with h2
      exact h2.symm
    | cons y ys =>
      rw [hd] at h
      exact Except.noConfusion h
  | some k =>
    cases hp : pyListGet d.elems k with
    | ok x =>
      simp only [_find_element_by] at h
      rw [hp] at h
      exact Except.noConfusion h
    | error e2 =>
      have he2 := pyListGet_error hp
      subst he2
      simp only [_find_element_by] at h
      rw [hp] at h
      injection h with h2
      exact h2.symm

/-- _find_element_by returns only handles from the current match list. -/
theorem _find_element_by_ok_mem {d : DriverState} {index : Option Int} {x : Nat}
    (h : _find_element_by d index = .ok x) : x ∈ d.elems := by
  cases index with
  | none =>
    simp only [_find_element_by, DriverState.find_element] at h
    cases hd : d.elems with
    | nil =>
      rw [hd] at h
      exact Except.noConfusion h
    | cons y ys =>
      rw [hd] at h
      injection h with h2
      rw [h2.symm]
      exact List.mem_cons_self _ _
  | some k =>
    cases hp : pyListGet d.elems k with
    | ok y =>
      simp only [_find_element_by] at h
      rw [hp] at h
      injection h with h2
      rw [h2.symm]
      exact pyListGet_ok_mem hp
    | error e2 =>
      have he2 := pyListGet_error hp
      subst he2
      simp only [_find_element_by] at h
      rw [hp] at h
      exact Except.noConfusion h

/-- An error escaping WebDriverWait.until is the deadline timeout or a
non-ignored exception raised by the predicate. -/
theorem wdwUntil_error_cases {ig : Exc → Bool} {pred : DriverState → Except Exc PredVal}
    {tr : List DriverState} {e : Exc}
    (h : wdwUntil ig pred tr = .error e) : e = .timeout ∨ ig e = false := by
  induction tr with
  | nil =>
    unfold wdwUntil at h
    injection h with h2
    exact Or.inl h2.symm
  | cons d ds ih =>
    unfold wdwUntil at h
    split at h
    · split at h
      · exact Except.noConfusion h
      · exact ih h
    · split at h
      · exact ih h
      · next hi =>
        injection h with h2
        subst h2
        exact Or.inr (by simpa using hi)

/-- An until call whose ignored set contains NoSuchElementException never
surfaces a raw NoSuchElementException. -/
theorem wdwUntil_ne_noSuchElement {ig : Exc → Bool} {pred : DriverState → Except Exc PredVal}
    {tr : List DriverState} (hig : ig .noSuchElement = true) :
    wdwUntil ig pred tr ≠ .error .noSuchElement := by
  intro h
  rcases wdwUntil_error_cases h with h2 | h2
  · exact Exc.noConfusion h2
  · rw [hig] at h2
    exact Bool.noConfusion h2

/-- Constant-state polling: a truthy predicate value is returned on the
first poll. -/
theorem wdwUntil_replicate_ok {ig : Exc → Bool} {pred : DriverState → Except Exc PredVal}
    {d : DriverState} {v : PredVal} {n : Nat}
    (hp : pred d = .ok v) (ht : v.truthy = true) (hn : 1 ≤ n) :
    wdwUntil ig pred (List.replicate n d) = .ok v := by
  cases n with
  | zero => omega
  | succ m =>
    rw [List.replicate_succ]
    simp only [wdwUntil, hp, ht, if_true]

/-- Constant-state polling: an always-ignored predicate error polls to the
deadline and raises TimeoutException. -/
theorem wdwUntil_replicate_ignored {ig : Exc → Bool} {pred : DriverState → Except Exc PredVal}
    {d : DriverState} {e : Exc} {n : Nat}
    (hp : pred d = .error e) (hi : ig e = true) :
    wdwUntil ig pred (List.replicate n d) = .error .timeout := by
  induction n with
  | zero => rfl
  | succ m ih =>
    rw [List.replicate_succ]
    simp only [wdwUntil, hp, hi, if_true]
    exact ih

/-- presence_of_element_located errors only with NoSuchElementException. -/
theorem presence_error {index : Option Int} {d : DriverState} {e : Exc}
    (h : presence_of_element_located index d = .error e) : e = .noSuchElement := by
  unfold presence_of_element_located at h
  cases hf : _find_element_by d index with
  | ok x =>
    rw [hf] at h
    simp [Except.map] at h
  | error e2 =>
    rw [hf] at h
    simp [Except.map] at h
    exact h ▸ _find_element_by_error hf

/-- A successful presence predicate value is the found element. -/
theorem presence_ok {index : Option Int} {d : DriverState} {v : PredVal}
    (h : presence_of_element_located index d = .ok v) :
    ∃ x, v = .elem x ∧ _find_element_by d index = .ok x := by
  unfold presence_of_element_located at h
  cases hf : _find_element_by d index with
  | ok x =>
    rw [hf] at h
    simp [Except.map] at h
    exact ⟨x, h.symm, rfl⟩
  | error e2 =>
    rw [hf] at h
    simp [Except.map] at h

/-! ### C3 -/

/-- C3: resolving an indexed locator when fewer than index + 1 matches exist
(including zero matches) is classified exactly as NoSuchElementException,
the same classification as a non-indexed locator with zero matches; an
IndexError is never surfaced; and under the wait engine the out-of-range
index takes the same path as zero matches, namely polling to the deadline
timeout. -/
theorem indexed_not_found_uniformity :
    (∀ (d : DriverState) (k : Int), 0 ≤ k → (d.elems.length : Int) ≤ k →
      _find_element_by d (some k) = .error .noSuchElement)
    ∧ (∀ (d : DriverState) (index : Option Int),
      _find_element_by d index ≠ .error .indexError)
    ∧ (∀ (d : DriverState) (index : Option Int), d.elems = [] →
      _find_element_by d index = .error .noSuchElement)
    ∧ (∀ (ig : Exc → Bool) (tr : List DriverState) (k : Int),
      ig .noSuchElement = true →
      (∀ d ∈ tr, _find_element_by d (some k) = .error .noSuchElement) →
      wdwUntil ig (presence_of_element_located (some k)) tr = .error .timeout) := by
  refine ⟨?_, ?_, ?_, ?_⟩
  · intro d k hk hlen
    have hget : d.elems.get? k.toNat = none := by
      rw [List.get?_eq_none]
      omega
    have hget2 : d.elems[k.toNat]? = none := by simpa using hget
    simp [_find_element_by, pyListGet, hk, hget, hget2]
  · intro d index h
    have := _find_element_by_error h
    exact Exc.noConfusion this
  · intro d index hd
    cases index with
    | none =>
      simp [_find_element_by, DriverState.find_element, hd]
    | some k =>
      have hp : pyListGet d.elems k = .error .indexError := by
        rw [hd]
        simp only [pyListGet]
        split
        · simp
        · split
          · simp
          · rfl
      simp [_find_element_by, hp]
  · intro ig tr k hig
    induction tr with
    | nil => intro _; rfl
    | cons d ds ih =>
      intro htr
      have hp : presence_of_element_located (some k) d = .error .noSuchElement := by
        unfold presence_of_element_located
        rw [htr d (List.mem_cons_self d ds)]
        rfl
      simp only [wdwUntil, hp, hig, if_true]
      exact ih (fun d2 hd2 => htr d2 (List.mem_cons_of_mem d hd2))

/-- Witness for C3 at concrete inputs: index 5 with three matches, a
negative out-of-range index, zero matches without an index, and a two-poll
wait on the out-of-range index ending in the timeout classification. -/
theorem indexed_not_found_uniformity_witness :
    _find_element_by dThree (some 5) = .error .noSuchElement
    ∧ _find_element_by dThree (some (-4)) ≠ .error .indexError
    ∧ _find_element_by dNone none = .error .noSuchElement
    ∧ wdwUntil ignoredDefault (presence_of_element_located (some 5)) [dThree, dThree] =
      .error .timeout := by
  refine ⟨?_, ?_, ?_, ?_⟩
  · exact indexed_not_found_uniformity.1 dThree 5 (by decide) (by decide)
  · exact indexed_not_found_uniformity.2.1 dThree (some (-4))
  · exact indexed_not_found_uniformity.2.2.1 dNone none rfl
  · refine indexed_not_found_uniformity.2.2.2 ignoredDefault [dThree, dThree] 5 rfl ?_
    intro d hd
    have hdd : d = dThree := by simpa using hd
    rw [hdd]
    rfl

/-! ### C4 -/

/-- The try block of invisibility_of_element_located never produces the
boolean True. -/
theorem invisibility_body_ne_boolTrue (index : Option Int) (d : DriverState) :
    invisibility_of_element_located_body index d ≠ .ok .boolTrue := by
  unfold invisibility_of_element_located_body
  cases hf : _find_element_by d index with
  | error e2 => simp [hf, exc_bind_err]
  | ok h =>
    cases hb : d.disp h with
    | error e2 => simp [hf, hb, exc_bind_ok, exc_bind_err]
    | ok b => cases b <;> simp [hf, hb, exc_bind_ok, exc_pure]

/-- The try block of element_located_to_be_unclickable never produces the
boolean True. -/
theorem unclickable_body_ne_boolTrue (index : Option Int) (d : DriverState) :
    element_located_to_be_unclickable_body index d ≠ .ok .boolTrue := by
  unfold element_located_to_be_unclickable_body
  cases hf : _find_element_by d index with
  | error e2 => simp [hf, exc_bind_err]
  | ok h =>
    cases ha : d.disp h with
    | error e2 => simp [hf, ha, exc_bind_ok, exc_bind_err]
    | ok a =>
      cases a with
      | false => simp [hf, ha, exc_bind_ok, exc_pure]
      | true =>
        cases hc : d.enab h with
        | error e2 => simp [hf, ha, hc, exc_bind_ok, exc_bind_err]
        | ok c => cases c <;> simp [hf, ha, hc, exc_bind_ok, exc_pure]

/-- With present true the tolerance handler is the identity. -/
theorem tolerateAbsence_true (r : Except Exc PredVal) :
    tolerateAbsence true r = r := by
  unfold tolerateAbsence
  split
  · simp
  · simp
  · rfl

/-- C4: for the locator-based inverse predicates
(invisibility_of_element_located and element_located_to_be_unclickable),
with present false a not-found outcome during evaluation is folded into the
satisfied result True; with present true the not-found outcome propagates so
that the wait engine classifies it; and the True-for-absent result is
reachable only with present false. -/
theorem inverse_condition_absence_tolerance :
    (∀ (d : DriverState) (index : Option Int),
      _find_element_by d index = .error .noSuchElement →
        invisibility_of_element_located index false d = .ok .boolTrue
        ∧ element_located_to_be_unclickable index false d = .ok .boolTrue
        ∧ invisibility_of_element_located index true d = .error .noSuchElement
        ∧ element_located_to_be_unclickable index true d = .error .noSuchElement)
    ∧ (∀ (d : DriverState) (index : Option Int),
      invisibility_of_element_located index true d ≠ .ok .boolTrue
      ∧ element_located_to_be_unclickable index true d ≠ .ok .boolTrue) := by
  constructor
  · intro d index hf
    have hb1 : invisibility_of_element_located_body index d = .error .noSuchElement := by
      unfold invisibility_of_element_located_body
      simp [hf, exc_bind_err]
    have hb2 : element_located_to_be_unclickable_body index d = .error .noSuchElement := by
      unfold element_located_to_be_unclickable_body
      simp [hf, exc_bind_err]
    refine ⟨?_, ?_, ?_, ?_⟩ <;>
      simp [invisibility_of_element_located, element_located_to_be_unclickable,
        hb1, hb2, tolerateAbsence]
  · intro d index
    constructor
    · intro hcontra
      unfold invisibility_of_element_located at hcontra
      rw [tolerateAbsence_true] at hcontra
      exact invisibility_body_ne_boolTrue index d hcontra
    · intro hcontra
      unfold element_located_to_be_unclickable at hcontra
      rw [tolerateAbsence_true] at hcontra
      exact unclickable_body_ne_boolTrue index d hcontra

/-- Witness for C4 at a concrete input: a locator with zero matches. -/
theorem inverse_condition_absence_tolerance_witness :
    invisibility_of_element_located none false dNone = .ok .boolTrue
    ∧ element_located_to_be_unclickable none false dNone = .ok .boolTrue
    ∧ invisibility_of_element_located none true dNone = .error .noSuchElement
    ∧ element_located_to_be_unclickable none true dNone = .error .noSuchElement
    ∧ invisibility_of_element_located none true dNone ≠ .ok .boolTrue := by
  have h := inverse_condition_absence_tolerance.1 dNone none rfl
  exact ⟨h.1, h.2.1, h.2.2.1, h.2.2.2,
    (inverse_condition_absence_tolerance.2 dNone none).1⟩

/-! ### C5 -/

/-- Element.locator fails only with ValueError. -/
theorem Element.locator_error {e : Element} {x : Exc}
    (h : e.locator = .error x) : x = .valueError := by
  unfold Element.locator at h
  split at h
  · exact Except.noConfusion h
  · injection h with h2
    exact h2.symm

/-- The first stage of a two-stage wait (cached handle, default ignored set)
never surfaces a raw NoSuchElementException. -/
theorem cachedStage_ne_noSuchElement (pred : Nat → DriverState → Except Exc PredVal)
    (pe : Option Nat) (t1 : List DriverState) :
    cachedStage pred pe t1 ≠ .error .noSuchElement := by
  unfold cachedStage
  cases pe with
  | none => simp
  | some h => exact wdwUntil_ne_noSuchElement rfl

/-- Result component shared by the two-stage wait methods, abstracting over
the state updates they perform. -/
def waitResult (cfg : TimeoutConfig) (e : Element) (reraise : Option Bool)
    (stage1 : Except Exc PredVal) (pred2 : DriverState → Except Exc PredVal)
    (trace2 : List DriverState) : Except Exc PredVal :=
  match stage1 with
  | .ok v => .ok v
  | .error err =>
    if isRefExc err then
      match e.locator with
      | .error lerr => .error lerr
      | .ok _ => wdwUntil ignoredWithStale pred2 trace2
    else
      match err with
      | .timeout =>
        if Timeout.reraise cfg reraise then .error .timeout else .ok .boolFalse
      | _ => .error err

/-- The result of wait_unselected is the shared two-stage result shape. -/
theorem wait_unselected_fst (cfg : TimeoutConfig) (e : Element) (st : ElemState)
    (t1 t2 : List DriverState) (timeout : Option ℚ) (reraise : Option Bool) :
    (Element.wait_unselected cfg e st t1 t2 timeout reraise).1 =
      waitResult cfg e reraise (cachedStage element_to_be_unselected st.presentElement t1)
        (element_located_to_be_unselected e.index) t2 := by
  unfold Element.wait_unselected waitResult
  dsimp only
  cases cachedStage element_to_be_unselected st.presentElement t1 with
  | ok v => rfl
  | error err =>
    dsimp only
    by_cases href : isRefExc err = true
    · rw [if_pos href, if_pos href]
      cases e.locator with
      | error lerr => rfl
      | ok lv =>
        dsimp only
        cases wdwUntil ignoredWithStale (element_located_to_be_unselected e.index) t2 <;> rfl
    · rw [if_neg href, if_neg href]
      cases err with
      | timeout =>
        dsimp only
        split
        · rfl
        · rfl
      | noSuchElement => rfl
      | staleElementReference => rfl
      | invalidSessionId => rfl
      | attributeError => rfl
      | indexError => rfl
      | valueError => rfl
      | typeError => rfl
      | other c => rfl

/-- The result of wait_selected is the shared two-stage result shape. -/
theorem wait_selected_fst (cfg : TimeoutConfig) (e : Element) (st : ElemState)
    (t1 t2 : List DriverState) (timeout : Option ℚ) (reraise : Option Bool) :
    (Element.wait_selected cfg e st t1 t2 timeout reraise).1 =
      waitResult cfg e reraise (cachedStage element_to_be_selected st.presentElement t1)
        (element_located_to_be_selected e.index) t2 := by
  unfold Element.wait_selected waitResult
  dsimp only
  cases cachedStage element_to_be_selected st.presentElement t1 with
  | ok v => rfl
  | error err =>
    dsimp only
    by_cases href : isRefExc err = true
    · rw [if_pos href, if_pos href]
      cases e.locator with
      | error lerr => rfl
      | ok lv =>
        dsimp only
        cases wdwUntil ignoredWithStale (element_located_to_be_selected e.index) t2 <;> rfl
    · rw [if_neg href, if_neg href]
      cases err with
      | timeout =>
        dsimp only
        split
        · rfl
        · rfl
      | noSuchElement => rfl
      | staleElementReference => rfl
      | invalidSessionId => rfl
      | attributeError => rfl
      | indexError => rfl
      | valueError => rfl
      | typeError => rfl
      | other c => rfl

/-- The result of wait_visible is the shared two-stage result shape. -/
theorem wait_visible_fst (cfg : TimeoutConfig) (e : Element) (st : ElemState)
    (t1 t2 : List DriverState) (timeout : Option ℚ) (reraise : Option Bool) :
    (Element.wait_visible cfg e st t1 t2 timeout reraise).1 =
      waitResult cfg e reraise (cachedStage visibility_of_element st.presentElement t1)
        (visibility_of_element_located e.index) t2 := by
  unfold Element.wait_visible waitResult
  dsimp only
  cases cachedStage visibility_of_element st.presentElement t1 with
  | ok v => rfl
  | error err =>
    dsimp only
    by_cases href : isRefExc err = true
    · rw [if_pos href, if_pos href]
      cases e.locator with
      | error lerr => rfl
      | ok lv =>
        dsimp only
        cases wdwUntil ignoredWithStale (visibility_of_element_located e.index) t2 <;> rfl
    · rw [if_neg href, if_neg href]
      cases err with
      | timeout =>
        dsimp only
        split
        · rfl
        · rfl
      | noSuchElement => rfl
      | staleElementReference => rfl
      | invalidSessionId => rfl
      | attributeError => rfl
      | indexError => rfl
      | valueError => rfl
      | typeError => rfl
      | other c => rfl

/-- A two-stage wait result whose first stage did not fail with
NoSuchElementException is itself never that exception. -/
theorem waitResult_ne_noSuchElement (cfg : TimeoutConfig) (e : Element) (reraise : Option Bool)
    {stage1 : Except Exc PredVal} (h1 : stage1 ≠ .error .noSuchElement)
    (pred2 : DriverState → Except Exc PredVal) (t2 : List DriverState) :
    waitResult cfg e reraise stage1 pred2 t2 ≠ .error .noSuchElement := by
  unfold waitResult
  cases stage1 with
  | ok v => simp
  | error err =>
    dsimp only
    by_cases href : isRefExc err = true
    · rw [if_pos href]
      cases hloc : e.locator with
      | error lerr =>
        have hv := Element.locator_error hloc
        subst hv
        simp
      | ok lv => exact wdwUntil_ne_noSuchElement rfl
    · rw [if_neg href]
      cases err with
      | timeout =>
        dsimp only
        split <;> simp
      | noSuchElement => exact absurd rfl h1
      | staleElementReference => simp
      | invalidSessionId => simp
      | attributeError => simp
      | indexError => simp
      | valueError => simp
      | typeError => simp
      | other c => simp

/-- C5: in wait_selected and wait_unselected a resolved element with
mismatched toggle state yields the falsy result; a not-found outcome always
propagates out of the predicates (there is no tolerate-absence flag and the
True-for-absent value is unreachable); and in the polling loop the
not-found outcome is tolerated, so the full methods never surface a raw
NoSuchElementException to the caller. -/
theorem selected_waits_never_tolerate_absence :
    (∀ (d : DriverState) (index : Option Int) (h : Nat),
      _find_element_by d index = .ok h → d.sel h = .ok true →
        element_located_to_be_unselected index d = .ok .boolFalse)
    ∧ (∀ (d : DriverState) (index : Option Int) (h : Nat),
      _find_element_by d index = .ok h → d.sel h = .ok false →
        element_located_to_be_selected index d = .ok .boolFalse)
    ∧ (∀ (d : DriverState) (index : Option Int),
      _find_element_by d index = .error .noSuchElement →
        element_located_to_be_unselected index d = .error .noSuchElement
        ∧ element_located_to_be_selected index d = .error .noSuchElement)
    ∧ (∀ (d : DriverState) (index : Option Int),
      element_located_to_be_unselected index d ≠ .ok .boolTrue
      ∧ element_located_to_be_selected index d ≠ .ok .boolTrue)
    ∧ (∀ (cfg : TimeoutConfig) (e : Element) (st : ElemState)
        (t1 t2 : List DriverState) (timeout : Option ℚ) (reraise : Option Bool),
      (Element.wait_unselected cfg e st t1 t2 timeout reraise).1 ≠ .error .noSuchElement
      ∧ (Element.wait_selected cfg e st t1 t2 timeout reraise).1 ≠ .error .noSuchElement) := by
  refine ⟨?_, ?_, ?_, ?_, ?_⟩
  · intro d index h hf hs
    unfold element_located_to_be_unselected
    simp [hf, hs, exc_bind_ok, exc_pure]
  · intro d index h hf hs
    unfold element_located_to_be_selected
    simp [hf, hs, exc_bind_ok, exc_pure]
  · intro d index hf
    constructor
    · unfold element_located_to_be_unselected
      simp [hf, exc_bind_err]
    · unfold element_located_to_be_selected
      simp [hf, exc_bind_err]
  · intro d index
    constructor
    · unfold element_located_to_be_unselected
      cases hf : _find_element_by d index with
      | error e2 => simp [hf, exc_bind_err]
      | ok h =>
        cases hs : d.sel h with
        | error e2 => simp [hf, hs, exc_bind_ok, exc_bind_err]
        | ok b => cases b <;> simp [hf, hs, exc_bind_ok, exc_pure]
    · unfold element_located_to_be_selected
      cases hf : _find_element_by d index with
      | error e2 => simp [hf, exc_bind_err]
      | ok h =>
        cases hs : d.sel h with
        | error e2 => simp [hf, hs, exc_bind_ok, exc_bind_err]
        | ok b => cases b <;> simp [hf, hs, exc_bind_ok, exc_pure]
  · intro cfg e st t1 t2 timeout reraise
    constructor
    · rw [wait_unselected_fst]
      exact waitResult_ne_noSuchElement cfg e reraise
        (cachedStage_ne_noSuchElement _ _ _) _ t2
    · rw [wait_selected_fst]
      exact waitResult_ne_noSuchElement cfg e reraise
        (cachedStage_ne_noSuchElement _ _ _) _ t2

/-- Witness for C5 at concrete inputs: a selected element for the unselected
predicate, an unselected element for the selected predicate, a zero-match
state, and a full wait_unselected run over a zero-match trace. -/
theorem selected_waits_never_tolerate_absence_witness :
    element_located_to_be_unselected none dSel = .ok .boolFalse
    ∧ element_located_to_be_selected none dThree = .ok .boolFalse
    ∧ element_located_to_be_unselected none dNone = .error .noSuchElement
    ∧ element_located_to_be_unselected none dNone ≠ .ok .boolTrue
    ∧ (Element.wait_unselected cfgD eID st0 [] [dNone] none (some true)).1 ≠
      .error .noSuchElement := by
  refine ⟨?_, ?_, ?_, ?_, ?_⟩
  · exact selected_waits_never_tolerate_absence.1 dSel none 7 rfl rfl
  · exact selected_waits_never_tolerate_absence.2.1 dThree none 10 rfl rfl
  · exact (selected_waits_never_tolerate_absence.2.2.1 dNone none rfl).1
  · exact (selected_waits_never_tolerate_absence.2.2.2.1 dNone none).1
  · exact (selected_waits_never_tolerate_absence.2.2.2.2 cfgD eID st0 [] [dNone]
      none (some true)).1

/-! ### C6 -/

/-- C6: the effective wait deadline is resolved with the precedence per-call
argument, then per-descriptor timeout, then the library-wide default
Timeout.DEFAULT, and the resolved value is recorded on the descriptor and
readable afterwards through the wait_timeout property. -/
theorem timeout_precedence (cfg : TimeoutConfig) (e : Element) (st : ElemState)
    (trace : List DriverState) (timeout : Option ℚ) (reraise : Option Bool) :
    Element.waitResolve cfg e timeout = resolvedTimeoutSpec timeout e.timeout cfg.DEFAULT
    ∧ Element.wait_timeout (Element.wait_present cfg e st trace timeout reraise).2 =
      some (Element.waitResolve cfg e timeout) := by
  constructor
  · unfold Element.waitResolve Element.initial_timeout resolvedTimeoutSpec
    cases timeout <;> cases e.timeout <;> simp [Option.getD]
  · unfold Element.wait_present Element.wait_timeout
    dsimp only
    cases e.locator with
    | error err => rfl
    | ok lv =>
      dsimp only
      cases wdwUntil ignoredDefault (presence_of_element_located e.index) trace with
      | ok v => rfl
      | error err =>
        cases err with
        | timeout =>
          dsimp only
          split
          · rfl
          · rfl
        | noSuchElement => rfl
        | staleElementReference => rfl
        | invalidSessionId => rfl
        | attributeError => rfl
        | indexError => rfl
        | valueError => rfl
        | typeError => rfl
        | other c => rfl

/-! ### C7 -/

/-- A locator missing its strategy or value raises ValueError. -/
theorem locator_missing {e : Element} (h : e.by_ = none ∨ e.value = none) :
    e.locator = .error .valueError := by
  unfold Element.locator
  rcases h with h | h
  · rw [h]
  · rw [h]
    cases e.by_ <;> rfl

/-- A float member makes the all-int test of __get_coordinate fail. -/
theorem allInts_none_of_float {q : ℚ} {l : List PyNum} (h : PyNum.f q ∈ l) :
    allInts l = none := by
  revert h
  induction l with
  | nil => intro h; cases h
  | cons x xs ih =>
    intro h
    cases x with
    | f r => rfl
    | i n =>
      rw [List.mem_cons] at h
      rcases h with h | h
      · exact PyNum.noConfusion h
      · simp [allInts, ih h]

/-- An int member makes the all-float test of __get_coordinate fail. -/
theorem allFloats_none_of_int {n : Int} {l : List PyNum} (h : PyNum.i n ∈ l) :
    allFloats l = none := by
  revert h
  induction l with
  | nil => intro h; cases h
  | cons x xs ih =>
    intro h
    cases x with
    | i m => rfl
    | f r =>
      rw [List.mem_cons] at h
      rcases h with h | h
      · exact PyNum.noConfusion h
      · simp [allFloats, ih h]

/-- The all-float test on a list of float values recovers the values. -/
theorem allFloats_map (qs : List ℚ) : allFloats (qs.map PyNum.f) = some qs := by
  induction qs with
  | nil => rfl
  | cons x xs ih => simp [allFloats, ih]

/-- C7 counterexample: with the area given as ratios (the default argument
of swipe_by), __get_area queries the window rectangle from the driver
before the offset is validated, so the TypeError for a mixed int and float
offset is raised only after a driver interaction, refuting the clause that
the error precedes any driver interaction. -/
theorem configuration_fail_fast_counterexample :
    Element.swipe_by (.tup [.i 1, .f (1/2), .i 3, .i 4])
        (.tup [.f 0, .f 0, .f 1, .f 1]) (0, 0, 100, 200)
        (fun _ _ => (.ok (), [])) =
      (.error .typeError, [.get_window_rect]) := by
  rfl

/-- C7 as amended: a locator missing its strategy or value raises ValueError
at once on any use, also through a wait method (never a timing error); a
malformed offset or area argument of swipe_by (not a dict or tuple, mixed
int and float values, or float values outside the closed unit interval)
raises TypeError or ValueError during validation, never tolerated or
converted to a timeout; a malformed area does so before any driver
interaction, while a malformed offset does so before any driver gesture,
the driver interactions being exactly those of the area conversion
(at most the window-rectangle query), whatever the gesture would do. -/
theorem configuration_fail_fast :
    (∀ e : Element, (e.by_ = none ∨ e.value = none) → e.locator = .error .valueError)
    ∧ (∀ (cfg : TimeoutConfig) (e : Element) (st : ElemState) (trace : List DriverState)
        (timeout : Option ℚ) (reraise : Option Bool), (e.by_ = none ∨ e.value = none) →
      (Element.wait_present cfg e st trace timeout reraise).1 = .error .valueError)
    ∧ __get_coordinate .other = .error .typeError
    ∧ (∀ (l : List PyNum) (n : Int) (q : ℚ), PyNum.i n ∈ l → PyNum.f q ∈ l →
      __get_coordinate (.tup l) = .error .typeError)
    ∧ (∀ (qs : List ℚ) (q : ℚ), q ∈ qs → ¬(0 ≤ q ∧ q ≤ 1) →
      __get_coordinate (.tup (qs.map PyNum.f)) = .error .valueError)
    ∧ (∀ (offset area : PyCoord) (window : Int × Int × Int × Int) (err : Exc)
        (g1 g2 : Int × Int × Int × Int → Int × Int × Int × Int →
          Except Exc Unit × List DriverCall),
      __get_coordinate area = .error err →
        Element.swipe_by offset area window g1 = (.error err, [])
        ∧ Element.swipe_by offset area window g1 = Element.swipe_by offset area window g2)
    ∧ (∀ (offset area : PyCoord) (window a : Int × Int × Int × Int)
        (alog : List DriverCall) (err : Exc)
        (g1 g2 : Int × Int × Int × Int → Int × Int × Int × Int →
          Except Exc Unit × List DriverCall),
      __get_area window area = (.ok a, alog) → __get_coordinate offset = .error err →
        Element.swipe_by offset area window g1 = (.error err, alog)
        ∧ Element.swipe_by offset area window g1 = Element.swipe_by offset area window g2) := by
  refine ⟨?_, ?_, ?_, ?_, ?_, ?_, ?_⟩
  · intro e h
    exact locator_missing h
  · intro cfg e st trace timeout reraise h
    unfold Element.wait_present
    dsimp only
    rw [locator_missing h]
  · rfl
  · intro l n q hi hf
    simp [__get_coordinate, PyCoord.values?, allInts_none_of_float hf,
      allFloats_none_of_int hi]
  · intro qs q hq hrange
    have hInts : allInts (qs.map PyNum.f) = none :=
      allInts_none_of_float (List.mem_map_of_mem PyNum.f hq)
    have hall : qs.all (fun r => decide (0 ≤ r) && decide (r ≤ 1)) = false := by
      rw [List.all_eq_false]
      refine ⟨q, hq, ?_⟩
      simpa using hrange
    simp [__get_coordinate, PyCoord.values?, hInts, allFloats_map, hall]
  · intro offset area window err g1 g2 harea
    have ha : __get_area window area = (.error err, []) := by
      unfold __get_area
      rw [harea]
    constructor
    · unfold Element.swipe_by
      rw [ha]
    · unfold Element.swipe_by
      rw [ha]
  · intro offset area window a alog err g1 g2 harea hoff
    have ho : __get_offset offset a = .error err := by
      unfold __get_offset
      simp [hoff, exc_bind_err]
    constructor
    · unfold Element.swipe_by
      rw [harea]
      dsimp only
      rw [ho]
    · unfold Element.swipe_by
      rw [harea]
      dsimp only
      rw [ho]

/-- An Element descriptor whose locator strategy is missing. -/
def eNoBy : Element := ⟨none, some "x", none, none⟩

/-- Witness for C7 at concrete inputs: a missing strategy, a non-coordinate
object, a mixed int and float tuple, a float outside the unit interval, a
swipe_by call with a malformed area performing no driver interaction, and a
swipe_by call with an absolute area and a malformed offset performing no
driver interaction either, run against a gesture continuation that would
swipe. -/
theorem configuration_fail_fast_witness :
    eNoBy.locator = .error .valueError
    ∧ (Element.wait_present cfgD eNoBy st0 [dThree] none none).1 = .error .valueError
    ∧ __get_coordinate .other = .error .typeError
    ∧ __get_coordinate (.tup [.i 1, .f (1/2), .i 3, .i 4]) = .error .typeError
    ∧ __get_coordinate (.tup ([(1:ℚ)/2, 3/2, 0, 1].map PyNum.f)) = .error .valueError
    ∧ Element.swipe_by (.tup [.i 0, .i 0, .i 0, .i 0]) .other (0, 0, 100, 100)
        (fun o _ => (.ok (), [.swipe o.1 o.2.1 o.2.2.1 o.2.2.2])) = (.error .typeError, [])
    ∧ Element.swipe_by (.tup [.i 1, .f (1/2), .i 3, .i 4])
        (.tup [.i 0, .i 0, .i 50, .i 50]) (0, 0, 100, 100)
        (fun o _ => (.ok (), [.swipe o.1 o.2.1 o.2.2.1 o.2.2.2])) = (.error .typeError, []) := by
  refine ⟨?_, ?_, ?_, ?_, ?_, ?_, ?_⟩
  · exact configuration_fail_fast.1 eNoBy (Or.inl rfl)
  · exact configuration_fail_fast.2.1 cfgD eNoBy st0 [dThree] none none (Or.inl rfl)
  · exact configuration_fail_fast.2.2.1
  · refine configuration_fail_fast.2.2.2.1 [.i 1, .f (1/2), .i 3, .i 4] 1 (1/2) ?_ ?_
    · exact List.mem_cons_self _ _
    · simp
  · refine configuration_fail_fast.2.2.2.2.1 [(1:ℚ)/2, 3/2, 0, 1] (3/2) ?_ ?_
    · simp
    · norm_num
  · exact (configuration_fail_fast.2.2.2.2.2.1 (.tup [.i 0, .i 0, .i 0, .i 0]) .other
      (0, 0, 100, 100) .typeError
      (fun o _ => (.ok (), [.swipe o.1 o.2.1 o.2.2.1 o.2.2.2]))
      (fun o _ => (.ok (), [.swipe o.1 o.2.1 o.2.2.1 o.2.2.2])) rfl).1
  · exact (configuration_fail_fast.2.2.2.2.2.2 (.tup [.i 1, .f (1/2), .i 3, .i 4])
      (.tup [.i 0, .i 0, .i 50, .i 50]) (0, 0, 100, 100) (0, 0, 50, 50) [] .typeError
      (fun o _ => (.ok (), [.swipe o.1 o.2.1 o.2.2.1 o.2.2.2]))
      (fun o _ => (.ok (), [.swipe o.1 o.2.1 o.2.2.1 o.2.2.2])) rfl rfl).1

/-! ### C10 -/

/-- Truncation toward zero stays inside any integer interval containing the
rational. -/
theorem pytrunc_mem {lo hi : ℤ} {q : ℚ} (h1 : (lo : ℚ) ≤ q) (h2 : q ≤ (hi : ℚ)) :
    lo ≤ pytrunc q ∧ pytrunc q ≤ hi := by
  unfold pytrunc
  split
  · constructor
    · exact Int.le_floor.mpr h1
    · calc ⌊q⌋ ≤ ⌊(hi : ℚ)⌋ := Int.floor_le_floor h2
        _ = hi := Int.floor_intCast hi
  · constructor
    · calc lo = ⌈(lo : ℚ)⌉ := (Int.ceil_intCast lo).symm
        _ ≤ ⌈q⌉ := Int.ceil_le_ceil h1
    · exact Int.ceil_le.mpr h2

/-- A ratio in the unit interval lands inside the segment after scaling,
translating and truncating toward zero. -/
theorem ratio_bounds {a w : ℤ} {r : ℚ} (hw : 0 ≤ w) (hr : 0 ≤ r ∧ r ≤ 1) :
    a ≤ pytrunc ((a : ℚ) + (w : ℚ) * r)
    ∧ pytrunc ((a : ℚ) + (w : ℚ) * r) ≤ a + w := by
  have hw2 : (0 : ℚ) ≤ (w : ℚ) := by exact_mod_cast hw
  have h1 : ((a : ℤ) : ℚ) ≤ (a : ℚ) + (w : ℚ) * r := by
    have := mul_nonneg hw2 hr.1
    linarith
  have h2 : (a : ℚ) + (w : ℚ) * r ≤ ((a + w : ℤ) : ℚ) := by
    have := mul_le_of_le_one_right hw2 hr.2
    push_cast
    linarith
  exact pytrunc_mem h1 h2

/-- C10: for a float offset whose four ratios lie in the closed unit
interval and an integer area rectangle with nonnegative width and height,
the swipe start and end points computed by __get_offset lie inside the area
rectangle. -/
theorem offset_conversion_in_area (sx sy ex ey : ℚ) (ax ay aw ah : ℤ)
    (hsx : 0 ≤ sx ∧ sx ≤ 1) (hsy : 0 ≤ sy ∧ sy ≤ 1)
    (hex : 0 ≤ ex ∧ ex ≤ 1) (hey : 0 ≤ ey ∧ ey ≤ 1)
    (hw : 0 ≤ aw) (hh : 0 ≤ ah) :
    ∃ o : Int × Int × Int × Int,
      __get_offset (.tup [.f sx, .f sy, .f ex, .f ey]) (ax, ay, aw, ah) = .ok o
      ∧ ax ≤ o.1 ∧ o.1 ≤ ax + aw
      ∧ ay ≤ o.2.1 ∧ o.2.1 ≤ ay + ah
      ∧ ax ≤ o.2.2.1 ∧ o.2.2.1 ≤ ax + aw
      ∧ ay ≤ o.2.2.2 ∧ o.2.2.2 ≤ ay + ah := by
  have hcheck : ([sx, sy, ex, ey].all (fun r => decide (0 ≤ r) && decide (r ≤ 1))) = true := by
    simp only [List.all_cons, List.all_nil, Bool.and_eq_true, decide_eq_true_eq, Bool.and_true]
    exact ⟨⟨hsx.1, hsx.2⟩, ⟨hsy.1, hsy.2⟩, ⟨hex.1, hex.2⟩, ⟨hey.1, hey.2⟩⟩
  refine ⟨(pytrunc ((ax : ℚ) + (aw : ℚ) * sx), pytrunc ((ay : ℚ) + (ah : ℚ) * sy),
    pytrunc ((ax : ℚ) + (aw : ℚ) * ex), pytrunc ((ay : ℚ) + (ah : ℚ) * ey)), ?_,
    (ratio_bounds hw hsx).1, (ratio_bounds hw hsx).2,
    (ratio_bounds hh hsy).1, (ratio_bounds hh hsy).2,
    (ratio_bounds hw hex).1, (ratio_bounds hw hex).2,
    (ratio_bounds hh hey).1, (ratio_bounds hh hey).2⟩
  unfold __get_offset
  simp [__get_coordinate, PyCoord.values?, allInts, allFloats, hcheck, exc_bind_ok, exc_pure]

/-- Witness for C10 at a concrete offset and area. -/
theorem offset_conversion_in_area_witness :
    ∃ o : Int × Int × Int × Int,
      __get_offset (.tup [.f (1/2), .f (3/4), .f (1/2), .f (1/4)]) (10, 20, 100, 50) = .ok o
      ∧ 10 ≤ o.1 ∧ o.1 ≤ 110
      ∧ 20 ≤ o.2.1 ∧ o.2.1 ≤ 70
      ∧ 10 ≤ o.2.2.1 ∧ o.2.2.1 ≤ 110
      ∧ 20 ≤ o.2.2.2 ∧ o.2.2.2 ≤ 70 := by
  have h := offset_conversion_in_area (1/2) (3/4) (1/2) (1/4) 10 20 100 50
    (by norm_num) (by norm_num) (by norm_num) (by norm_num) (by norm_num) (by norm_num)
  simpa using h

/-! ### C8 -/

/-- C8 (code bug): with an element that never becomes viewable, the
swipe-until-viewable and flick-until-viewable loops of swipe_by and flick_by
do not terminate within any number of iterations, issuing one driver gesture
per iteration; max_swipe and max_flick do not bound them because the
comparison only emits a log message.  The boundary-adjustment loop, in
contrast, is bounded by max_adjust adjusting swipes. -/
theorem swipe_loop_unbounded :
    (∀ (m c fuel : Nat), __start_swiping_by (fun _ => false) m c fuel = none)
    ∧ (∀ (m c fuel : Nat), __start_flicking_by (fun _ => false) m c fuel = none)
    ∧ (∀ (adjustDelta : Nat → Option (Int × Int)) (m : Nat),
      __start_adjusting_by adjustDelta m ≤ m) := by
  have hadj : ∀ (adjustDelta : Nat → Option (Int × Int)) (m : Nat) (rem i : Nat),
      i + rem = m + 2 → adjustGo adjustDelta m i rem ≤ rem - 1 := by
    intro adjustDelta m rem
    induction rem with
    | zero =>
      intro i hi
      simp [adjustGo]
    | succ nr ih =>
      intro i hi
      unfold adjustGo
      cases adjustDelta i with
      | none => simp
      | some p =>
        dsimp only
        by_cases hend : i = m + 1
        · rw [if_pos hend]
          simp
        · rw [if_neg hend]
          have h2 := ih (i + 1) (by omega)
          omega
  refine ⟨?_, ?_, ?_⟩
  · intro m c fuel
    induction fuel generalizing c with
    | zero => rfl
    | succ nf ih => simp [__start_swiping_by, ih]
  · intro m c fuel
    induction fuel generalizing c with
    | zero => rfl
    | succ nf ih => simp [__start_flicking_by, ih]
  · intro adjustDelta m
    have h := hadj adjustDelta m (m + 1) 1 (by omega)
    unfold __start_adjusting_by
    omega

/-! ### C2 -/

/-- C2 (code bug): wait_visible on a fresh descriptor (no cached present
element) with reraise explicitly false still raises TimeoutException when
the locator fallback wait reaches its deadline: the TimeoutException is
raised inside the except ElementReferenceException handler, which the except
TimeoutException clause implementing the reraise policy cannot catch, while
the docstring promises the sentinel False in that situation. -/
theorem wait_visible_reraise_false_still_raises :
    (Element.wait_visible cfgD eID st0 [] [dNone] none (some false)).1 = .error .timeout
    ∧ Timeout.reraise cfgD (some false) = false := by
  constructor
  · rfl
  · rfl

/-! ### C1 -/

/-- C1: on a descriptor holding a cached handle, a text read that fails with
the stale/invalid-reference class is recovered transparently: the locator
wait (present_element, that is wait_present with reraise True) resolves a
fresh handle and the operation result on the fresh handle is returned with
the refreshed cache, the caller observing no exception of that class; an
exception of any other class from the operation propagates unchanged. -/
theorem stale_recovery_transparency (cfg : TimeoutConfig) (e : Element) (st : ElemState)
    (h h2 : Nat) (s1 s2 : DriverState) (trace : List DriverState) (st2 : ElemState)
    (str : String) (err : Exc) (hc : st.presentElement = some h)
    (htxt : s1.txt h = .error err) :
    (isRefExc err = true →
      Element.wait_present cfg e st trace none (some true) = (.ok (.elem h2), st2) →
      s2.txt h2 = .ok str →
      Element.text cfg e st s1 trace s2 = (.ok str, st2))
    ∧ (isRefExc err = false →
      (Element.text cfg e st s1 trace s2).1 = .error err) := by
  constructor
  · intro href hwp hs2
    unfold Element.text
    simp [hc, htxt, href, hwp, PredVal.elemHandle?, hs2]
  · intro href
    unfold Element.text
    simp [hc, htxt, href]

/-- Descriptor state caching handle 5. -/
def stCached : ElemState := ⟨some 5, none, none⟩

/-- Driver state in which the cached handle 5 has gone stale while the
locator resolves to the fresh handle 10. -/
def dStale : DriverState :=
  ⟨[10, 11, 12], fun _ => .ok true, fun _ => .ok true, fun _ => .ok false,
    fun nh => if nh = 5 then .error .staleElementReference else .ok "fresh"⟩

/-- Driver state in which the text read on the cached handle 5 fails with an
exception outside the stale/invalid-reference class. -/
def dOpFail : DriverState :=
  ⟨[10], fun _ => .ok true, fun _ => .ok true, fun _ => .ok false,
    fun nh => if nh = 5 then .error (.other 0) else .ok "fresh"⟩

/-- Witness for C1 at concrete inputs: a stale cached handle recovered to
the fresh handle 10, and a non-reference exception passing through. -/
theorem stale_recovery_transparency_witness :
    Element.text cfgD eID stCached dStale [dStale] dStale =
      (.ok "fresh", ⟨some 10, none, some 30⟩)
    ∧ (Element.text cfgD eID stCached dOpFail [dOpFail] dOpFail).1 = .error (.other 0) := by
  constructor
  · have hwp : Element.wait_present cfgD eID stCached [dStale] none (some true) =
        (.ok (.elem 10), ⟨some 10, none, some 30⟩) := rfl
    exact (stale_recovery_transparency cfgD eID stCached 5 10 dStale dStale [dStale]
      ⟨some 10, none, some 30⟩ "fresh" .staleElementReference rfl rfl).1 rfl hwp rfl
  · exact (stale_recovery_transparency cfgD eID stCached 5 0 dOpFail dOpFail [dOpFail]
      st0 "" (.other 0) rfl rfl).2 rfl

/-! ### C9 -/

/-- wait_present over a constant trace with at least one poll returns the
element resolved by the locator and caches its handle. -/
theorem wait_present_const_found (cfg : TimeoutConfig) (e : Element) (st : ElemState)
    {s : DriverState} {n x : Nat} {lv : String × String} (hn : 1 ≤ n)
    (hlv : e.locator = .ok lv) (hf : _find_element_by s e.index = .ok x) :
    Element.wait_present cfg e st (List.replicate n s) none (some true) =
      (.ok (.elem x),
        ⟨some x, st.visibleElement, some (Element.waitResolve cfg e none)⟩) := by
  have hp : presence_of_element_located e.index s = .ok (.elem x) := by
    unfold presence_of_element_located
    rw [hf]
    rfl
  unfold Element.wait_present
  dsimp only
  rw [hlv]
  dsimp only
  rw [wdwUntil_replicate_ok hp rfl hn]
  rfl

/-- wait_present with reraise True over a constant zero-match trace raises
TimeoutException and leaves the cached handle untouched. -/
theorem wait_present_const_absent (cfg : TimeoutConfig) (e : Element) (st : ElemState)
    {s : DriverState} {lv : String × String} (n : Nat)
    (hlv : e.locator = .ok lv)
    (hf : _find_element_by s e.index = .error .noSuchElement) :
    Element.wait_present cfg e st (List.replicate n s) none (some true) =
      (.error .timeout,
        ⟨st.presentElement, st.visibleElement, some (Element.waitResolve cfg e none)⟩) := by
  have hp : presence_of_element_located e.index s = .error .noSuchElement := by
    unfold presence_of_element_located
    rw [hf]
    rfl
  unfold Element.wait_present
  dsimp only
  rw [hlv]
  dsimp only
  rw [wdwUntil_replicate_ignored hp rfl]
  rfl

/-- wait_present propagates the configuration error of an unusable locator. -/
theorem wait_present_locator_error (cfg : TimeoutConfig) (e : Element) (st : ElemState)
    (trace : List DriverState) {lerr : Exc} (hlv : e.locator = .error lerr) :
    Element.wait_present cfg e st trace none (some true) =
      (.error lerr,
        ⟨st.presentElement, st.visibleElement, some (Element.waitResolve cfg e none)⟩) := by
  unfold Element.wait_present
  dsimp only
  rw [hlv]

/-- is_visible on a valid cached handle reads is_displayed directly. -/
theorem is_visible_cache_ok (cfg : TimeoutConfig) (e : Element) (st : ElemState)
    (s1 : DriverState) (trace : List DriverState) (s2 : DriverState) {h : Nat} {b : Bool}
    (hc : st.presentElement = some h) (hd : s1.disp h = .ok b) :
    Element.is_visible cfg e st s1 trace s2 = (.ok b, st) := by
  unfold Element.is_visible
  simp [hc, hd]

/-- is_visible propagates a cached-handle failure outside the reference
class unchanged. -/
theorem is_visible_cache_err (cfg : TimeoutConfig) (e : Element) (st : ElemState)
    (s1 : DriverState) (trace : List DriverState) (s2 : DriverState) {h : Nat} {err : Exc}
    (hc : st.presentElement = some h) (hd : s1.disp h = .error err)
    (href : isRefExc err = false) :
    Element.is_visible cfg e st s1 trace s2 = (.error err, st) := by
  unfold Element.is_visible
  simp [hc, hd, href]

/-- is_visible with no cached handle takes the recovery path. -/
theorem is_visible_recover_none (cfg : TimeoutConfig) (e : Element) (st : ElemState)
    (s1 : DriverState) (trace : List DriverState) (s2 : DriverState)
    (hc : st.presentElement = none) :
    Element.is_visible cfg e st s1 trace s2 =
      match Element.wait_present cfg e st trace none (some true) with
      | (.ok v, st2) =>
        match v.elemHandle? with
        | some x => (s2.disp x, st2)
        | none => (.error .attributeError, st2)
      | (.error err2, st2) => (.error err2, st2) := by
  unfold Element.is_visible
  simp [hc, isRefExc]

/-- is_visible with a cached handle failing in the reference class takes the
recovery path. -/
theorem is_visible_recover_some (cfg : TimeoutConfig) (e : Element) (st : ElemState)
    (s1 : DriverState) (trace : List DriverState) (s2 : DriverState) {h : Nat} {err : Exc}
    (hc : st.presentElement = some h) (hd : s1.disp h = .error err)
    (href : isRefExc err = true) :
    Element.is_visible cfg e st s1 trace s2 =
      match Element.wait_present cfg e st trace none (some true) with
      | (.ok v, st2) =>
        match v.elemHandle? with
        | some x => (s2.disp x, st2)
        | none => (.error .attributeError, st2)
      | (.error err2, st2) => (.error err2, st2) := by
  unfold Element.is_visible
  simp [hc, hd, href]

/-- C9: with the external driver state unchanged between and during the two
calls (constant poll states, well-formed in that every currently matched
handle answers is_displayed), two successive is_visible calls on the same
descriptor return the same result, whichever of the cache-hit, recovery or
failure paths the first call takes. -/
theorem is_visible_idempotent (cfg : TimeoutConfig) (e : Element) (st : ElemState)
    (s : DriverState) (n m : Nat) (hn : 1 ≤ n)
    (hwf : ∀ x ∈ s.elems, ∃ b, s.disp x = .ok b) :
    (Element.is_visible cfg e st s (List.replicate n s) s).1 =
      (Element.is_visible cfg e (Element.is_visible cfg e st s (List.replicate n s) s).2
        s (List.replicate m s) s).1 := by
  cases hc : st.presentElement with
  | some h =>
    cases hd : s.disp h with
    | ok b =>
      rw [is_visible_cache_ok cfg e st s (List.replicate n s) s hc hd]
      dsimp only
      rw [is_visible_cache_ok cfg e st s (List.replicate m s) s hc hd]
    | error err =>
      cases href : isRefExc err with
      | false =>
        rw [is_visible_cache_err cfg e st s (List.replicate n s) s hc hd href]
        dsimp only
        rw [is_visible_cache_err cfg e st s (List.replicate m s) s hc hd href]
      | true =>
        rw [is_visible_recover_some cfg e st s (List.replicate n s) s hc hd href]
        cases hlv : e.locator with
        | error lerr =>
          rw [wait_present_locator_error cfg e st (List.replicate n s) hlv]
          dsimp only
          rw [is_visible_recover_some cfg e
            ⟨st.presentElement, st.visibleElement, some (Element.waitResolve cfg e none)⟩
            s (List.replicate m s) s hc hd href]
          rw [wait_present_locator_error cfg e
            ⟨st.presentElement, st.visibleElement, some (Element.waitResolve cfg e none)⟩
            (List.replicate m s) hlv]
        | ok lv =>
          cases hfind : _find_element_by s e.index with
          | ok x =>
            rw [wait_present_const_found cfg e st hn hlv hfind]
            dsimp only [PredVal.elemHandle?]
            obtain ⟨b2, hb2⟩ := hwf x (_find_element_by_ok_mem hfind)
            rw [hb2]
            rw [is_visible_cache_ok cfg e
              ⟨some x, st.visibleElement, some (Element.waitResolve cfg e none)⟩
              s (List.replicate m s) s rfl hb2]
          | error e2 =>
            have he2 : e2 = .noSuchElement := _find_element_by_error hfind
            subst he2
            rw [wait_present_const_absent cfg e st n hlv hfind]
            dsimp only
            rw [is_visible_recover_some cfg e
              ⟨st.presentElement, st.visibleElement, some (Element.waitResolve cfg e none)⟩
              s (List.replicate m s) s hc hd href]
            rw [wait_present_const_absent cfg e
              ⟨st.presentElement, st.visibleElement, some (Element.waitResolve cfg e none)⟩
              m hlv hfind]
  | none =>
    rw [is_visible_recover_none cfg e st s (List.replicate n s) s hc]
    cases hlv : e.locator with
    | error lerr =>
      rw [wait_present_locator_error cfg e st (List.replicate n s) hlv]
      dsimp only
      rw [is_visible_recover_none cfg e
        ⟨st.presentElement, st.visibleElement, some (Element.waitResolve cfg e none)⟩
        s (List.replicate m s) s hc]
      rw [wait_present_locator_error cfg e
        ⟨st.presentElement, st.visibleElement, some (Element.waitResolve cfg e none)⟩
        (List.replicate m s) hlv]
    | ok lv =>
      cases hfind : _find_element_by s e.index with
      | ok x =>
        rw [wait_present_const_found cfg e st hn hlv hfind]
        dsimp only [PredVal.elemHandle?]
        obtain ⟨b2, hb2⟩ := hwf x (_find_element_by_ok_mem hfind)
        rw [hb2]
        rw [is_visible_cache_ok cfg e
          ⟨some x, st.visibleElement, some (Element.waitResolve cfg e none)⟩
          s (List.replicate m s) s rfl hb2]
      | error e2 =>
        have he2 : e2 = .noSuchElement := _find_element_by_error hfind
        subst he2
        rw [wait_present_const_absent cfg e st n hlv hfind]
        dsimp only
        rw [is_visible_recover_none cfg e
          ⟨st.presentElement, st.visibleElement, some (Element.waitResolve cfg e none)⟩
          s (List.replicate m s) s hc]
        rw [wait_present_const_absent cfg e
          ⟨st.presentElement, st.visibleElement, some (Element.waitResolve cfg e none)⟩
          m hlv hfind]

/-- Witness for C9 at concrete inputs: a stale cached handle recovered on
the first call and reused on the second, over an unchanged driver state. -/
theorem is_visible_idempotent_witness :
    (Element.is_visible cfgD eID stCached dStale (List.replicate 2 dStale) dStale).1 =
      (Element.is_visible cfgD eID
        (Element.is_visible cfgD eID stCached dStale (List.replicate 2 dStale) dStale).2
        dStale (List.replicate 3 dStale) dStale).1 := by
  refine is_visible_idempotent cfgD eID stCached dStale 2 3 (by omega) ?_
  intro x hx
  exact ⟨true, rfl⟩

end HuskyPO
